import Mathlib

/-!
Shallow embedding of the scuba whip calculator (Go) core: the equation-of-state
functions (`GasToMoles`, `MolesToPressure`), the mixture conversions, the
`Equalize` engine and the pairwise-then-group scenario driver
(`equalizeAndReport`).

Conventions of the embedding:
* Go `float64` arithmetic is modelled by exact real arithmetic over `ℝ`.
  `math.Sqrt` becomes `Real.sqrt` and `math.Pow(x, 1/3.0)` becomes
  `x ^ ((1:ℝ)/3)` (real power); `math.Pow(x, 2.0)` and `math.Pow(x, 3.0)`
  are the integer powers `x ^ 2`, `x ^ 3`, which agree with Go's `math.Pow`
  at integral exponents.
* Go's in-place mutation through `[]*Cylinder` is modelled by returning the
  updated list; `fmt.Println`/`fmt.Printf` output is modelled by a `LogEntry`
  trace returned alongside the value, so that the effect of the `verbose` and
  `debug` flags is visible in the model.
* `GasComposition` is Go's `map[Gas]float64`, modelled as an association list;
  the Go map iteration order is unspecified, which is harmless here because
  exact real addition is commutative and associative.
-/

namespace ScubaWhip

/-- The system used to calculate the amount of the gas. -/
inductive GasSystem where
  | idealGas
  | vanDerWaals
deriving DecidableEq

/-- The gases cylinders may contain. -/
inductive Gas where
  | helium
  | oxygen
  | nitrogen
  | argon
  | neon
  | hydrogen
deriving DecidableEq

/-- Van der Waals equation constants for one gas. -/
structure VanDerWaalsConstant where
  A : ℝ
  B : ℝ

/-- R is an ideal gas constant (the Go package constant `R = 0.0831`). -/
noncomputable def R : ℝ := 0.0831

/-- `VanDerWaalsConstants` lookup table (Go `map[Gas]VanDerWaalsConstant`). -/
noncomputable def VanDerWaalsConstants : Gas → VanDerWaalsConstant
  | Gas.argon => ⟨1.355, 0.03201⟩
  | Gas.helium => ⟨0.0346, 0.0238⟩
  | Gas.hydrogen => ⟨0.2476, 0.02661⟩
  | Gas.neon => ⟨0.2135, 0.01709⟩
  | Gas.nitrogen => ⟨1.370, 0.0387⟩
  | Gas.oxygen => ⟨1.382, 0.03186⟩

/-- `AtomicWeightLookup`: the weight of a single mole in grams. -/
noncomputable def AtomicWeightLookup : Gas → ℝ
  | Gas.argon => 14.0067
  | Gas.helium => 4.002602
  | Gas.hydrogen => 1.00784
  | Gas.neon => 20.1797
  | Gas.nitrogen => 14.0067
  | Gas.oxygen => 15.999

/-- `GasComposition` stores information about gases currently being processed
(Go `map[Gas]float64`, as an association list of (gas, fraction) entries). -/
def GasComposition : Type := List (Gas × ℝ)

/-- `PressureFromVolumes` returns pressure from gas volume and cylinder volume. -/
noncomputable def PressureFromVolumes (gasVolume totalVolume : ℝ) : ℝ :=
  gasVolume / totalVolume

/-- `PressureBar.PartialPressure`: partial pressure from pressure and multiplier. -/
noncomputable def PartialPressure (p pp : ℝ) : ℝ :=
  p * pp

/-- `GasWeightFromMole` calculates gas weight from mole count and atomic weight. -/
noncomputable def GasWeightFromMole (moleCount atomicWeight : ℝ) : ℝ :=
  moleCount * atomicWeight

/-- The local `subterm1` of Go's `GasToMoles` (with `a2`, `a3`, `b2`, `V3`
inlined as powers). -/
noncomputable def subterm1 (cylinderVolume cylinderPressure : ℝ)
    (vdwConstants : VanDerWaalsConstant) (temperature : ℝ) : ℝ :=
  2 * vdwConstants.A ^ 3 * cylinderVolume ^ 3
    + 18 * vdwConstants.A ^ 2 * vdwConstants.B ^ 2 * cylinderPressure * cylinderVolume ^ 3
    - 9 * vdwConstants.A ^ 2 * vdwConstants.B * R * temperature * cylinderVolume ^ 3

/-- The local `subterm2` of Go's `GasToMoles`. -/
noncomputable def subterm2 (cylinderVolume cylinderPressure : ℝ)
    (vdwConstants : VanDerWaalsConstant) (temperature : ℝ) : ℝ :=
  3 * vdwConstants.A * vdwConstants.B
      * (vdwConstants.B * cylinderPressure * cylinderVolume ^ 2
          + R * temperature * cylinderVolume ^ 2)
    - vdwConstants.A ^ 2 * cylinderVolume ^ 2

/-- The local `subterm3` of Go's `GasToMoles`: the real cube root
`math.Pow(subterm1 + math.Sqrt(4*subterm2^3 + subterm1^2), 1/3.0)`. -/
noncomputable def subterm3 (cylinderVolume cylinderPressure : ℝ)
    (vdwConstants : VanDerWaalsConstant) (temperature : ℝ) : ℝ :=
  (subterm1 cylinderVolume cylinderPressure vdwConstants temperature
      + Real.sqrt (4 * (subterm2 cylinderVolume cylinderPressure vdwConstants temperature) ^ 3
          + (subterm1 cylinderVolume cylinderPressure vdwConstants temperature) ^ 2))
    ^ ((1 : ℝ) / 3)

/-- `GasToMoles` calculates the number of moles in the given cylinder: the
closed-form (Cardano) root of the Van der Waals cubic, exactly as written in
the source (`term1/(a*b) - term3/term2 + (0.33333*V)/b`). Note the source has
no special case for `cylinderPressure ≤ 0`. -/
noncomputable def GasToMoles (cylinderVolume cylinderPressure : ℝ)
    (vdwConstants : VanDerWaalsConstant) (temperature : ℝ) : ℝ :=
  0.26457 * subterm3 cylinderVolume cylinderPressure vdwConstants temperature
      / (vdwConstants.A * vdwConstants.B)
    - 0.41997 * subterm2 cylinderVolume cylinderPressure vdwConstants temperature
      / (vdwConstants.A * vdwConstants.B
          * subterm3 cylinderVolume cylinderPressure vdwConstants temperature)
    + 0.33333 * cylinderVolume / vdwConstants.B

/-- `gasCompositionToMoles`: total moles of the mixture, summing `GasToMoles`
of each component's Dalton partial pressure. -/
noncomputable def gasCompositionToMoles (cylinderVolume cylinderPressure temperature : ℝ)
    (gasComposition : GasComposition) : ℝ :=
  (gasComposition.map fun gi =>
    GasToMoles cylinderVolume (PartialPressure cylinderPressure gi.2)
      (VanDerWaalsConstants gi.1) temperature).sum

/-- `MolesToPressure` returns pressure from volume and mole count:
`n * (-(a*n)/V2 - (R*T)/(b*n-V))`. -/
noncomputable def MolesToPressure (cylinderVolume moleCount temperature : ℝ)
    (vdwConstants : VanDerWaalsConstant) : ℝ :=
  moleCount * (-(vdwConstants.A * moleCount) / cylinderVolume ^ 2
    - (R * temperature) / (vdwConstants.B * moleCount - cylinderVolume))

/-- `cylinderMolesToPressure`: total pressure of the mixture, summing
`MolesToPressure` of each component's mole share. -/
noncomputable def cylinderMolesToPressure (cylinderVolume n temperature : ℝ)
    (gasComposition : GasComposition) : ℝ :=
  (gasComposition.map fun gi =>
    MolesToPressure cylinderVolume (n * gi.2) temperature (VanDerWaalsConstants gi.1)).sum

/-- `Cylinder` represents a single cylinder and the gas it contains. -/
structure Cylinder where
  Description : String
  CylinderVolume : ℝ
  Pressure : ℝ

instance : Inhabited Cylinder := ⟨⟨"", 0, 0⟩⟩

/-- `Cylinder.GasVolume` returns the amount of gas in the cylinder. -/
noncomputable def Cylinder.GasVolume (c1 : Cylinder) (gasSystem : GasSystem)
    (gasComposition : GasComposition) (temperature : ℝ) : ℝ :=
  if gasSystem = GasSystem.idealGas then
    c1.CylinderVolume * c1.Pressure
  else
    gasCompositionToMoles c1.CylinderVolume c1.Pressure temperature gasComposition * 22.4

/-- `Cylinder.Moles` returns the number of moles inside a cylinder. -/
noncomputable def Cylinder.Moles (c1 : Cylinder) (temperature : ℝ)
    (gasComposition : GasComposition) : ℝ :=
  gasCompositionToMoles c1.CylinderVolume c1.Pressure temperature gasComposition

/-- `Cylinder.GasWeight` returns the weight of the gas stored in the cylinder. -/
noncomputable def Cylinder.GasWeight (c1 : Cylinder) (gasComposition : GasComposition)
    (temperature : ℝ) : ℝ :=
  (gasComposition.map fun gi =>
    GasWeightFromMole
      (GasToMoles c1.CylinderVolume (PartialPressure c1.Pressure gi.2)
        (VanDerWaalsConstants gi.1) temperature)
      (AtomicWeightLookup gi.1)).sum

/-- One line of console output, abstracted: which print fired and with which
values. Mirrors the `fmt.Println`/`fmt.Printf` calls of the source. -/
inductive LogEntry where
  | cylinderMoles (c : Cylinder) (moles : ℝ)
  | molesAndPressure (totalMoles pressureAfterEqualize : ℝ)
  | beforeTransfers (sourceGasVolume sourcePressure destinationGasVolume destinationPressure : ℝ)
  | equalizingWith (description : String)
  | step (stepI : Nat) (fromDescription toDescription : String) (transferred : ℝ)
  | groupGasVolumes (sourceGasVolume destinationGasVolume : ℝ)
  | finalReport (sourceGasVolume sourcePressure destinationGasVolume destinationPressure : ℝ)

/-- The local `pressureAfterEqualize` of Go's `Equalize` (with the local
accumulators `totalVolume`, `totalGasVolume`, `totalMoles` inlined as list
sums): ideal mode divides total gas volume by total cylinder volume, Van der
Waals mode converts the summed moles back to a pressure. -/
noncomputable def pressureAfterEqualize (cylinders : List Cylinder) (gasSystem : GasSystem)
    (gasComposition : GasComposition) (temperature : ℝ) : ℝ :=
  if gasSystem = GasSystem.idealGas then
    PressureFromVolumes
      ((cylinders.map fun c => c.GasVolume gasSystem gasComposition temperature).sum)
      ((cylinders.map fun c => c.CylinderVolume).sum)
  else
    cylinderMolesToPressure ((cylinders.map fun c => c.CylinderVolume).sum)
      ((cylinders.map fun c => c.Moles temperature gasComposition).sum)
      temperature gasComposition

/-- `Equalize` equalizes all input cylinders: computes the pressure after
equalization (ideal: total gas volume over total volume; Van der Waals: via
total moles and `cylinderMolesToPressure`) and writes it into every cylinder.
The Go function mutates through `[]*Cylinder`; here the updated list is
returned, together with the debug output the call would print. -/
noncomputable def Equalize (cylinders : List Cylinder) (gasSystem : GasSystem)
    (gasComposition : GasComposition) (temperature : ℝ) (verbose debug : Bool) :
    List Cylinder × List LogEntry :=
  (cylinders.map fun c =>
    { c with Pressure := pressureAfterEqualize cylinders gasSystem gasComposition temperature },
    if gasSystem = GasSystem.idealGas then []
    else if debug then
      (cylinders.map fun c => LogEntry.cylinderMoles c (c.Moles temperature gasComposition))
        ++ [LogEntry.molesAndPressure
              ((cylinders.map fun c => c.Moles temperature gasComposition).sum)
              (pressureAfterEqualize cylinders gasSystem gasComposition temperature)]
    else [])

/-- `Cylinder.Equalize` equalizes two cylinders: the Go method wraps the
receiver and the argument into a two-element group and calls `Equalize`. -/
noncomputable def Cylinder.Equalize (c1 c2 : Cylinder) (gasSystem : GasSystem)
    (gasComposition : GasComposition) (temperature : ℝ) (verbose debug : Bool) :
    List Cylinder × List LogEntry :=
  ScubaWhip.Equalize [c1, c2] gasSystem gasComposition temperature verbose debug

/-- `CylinderList` is a list of cylinders. -/
def CylinderList : Type := List Cylinder

/-- `CylinderList.TotalVolume`: total cylinder volume of the listed cylinders. -/
noncomputable def CylinderList.TotalVolume (cl : List Cylinder) : ℝ :=
  (cl.map fun c => c.CylinderVolume).sum

/-- `CylinderList.TotalGasVolume`: total gas volume of the listed cylinders. -/
noncomputable def CylinderList.TotalGasVolume (cl : List Cylinder) (gasSystem : GasSystem)
    (gasComposition : GasComposition) (temperature : ℝ) : ℝ :=
  (cl.map fun c => c.GasVolume gasSystem gasComposition temperature).sum

/-- `CylinderList.TotalGasWeight`: total gas weight of the listed cylinders. -/
noncomputable def CylinderList.TotalGasWeight (cl : List Cylinder)
    (gasComposition : GasComposition) (temperature : ℝ) : ℝ :=
  (cl.map fun c => c.GasWeight gasComposition temperature).sum

/-- `CylinderConfiguration` holds the validated scenario input. -/
structure CylinderConfiguration where
  DestinationCylinderIsTwinset : Bool
  DestinationCylinderPressure : ℝ
  DestinationCylinderVolume : ℝ
  SourceCylinderIsTwinset : Bool
  SourceCylinderPressure : ℝ
  SourceCylinderVolume : ℝ

/-- `initializeCylinders` builds the source and destination cylinder lists from
a configuration: a twinset side becomes two half-volume cylinders "left" and
"right", a plain side one cylinder "source" / "destination". The Go function
writes through two out-pointers; here the two lists are returned. -/
noncomputable def initializeCylinders (cylinderConfiguration : CylinderConfiguration) :
    List Cylinder × List Cylinder :=
  (if cylinderConfiguration.SourceCylinderIsTwinset then
    [⟨"left", cylinderConfiguration.SourceCylinderVolume / 2,
        cylinderConfiguration.SourceCylinderPressure⟩,
     ⟨"right", cylinderConfiguration.SourceCylinderVolume / 2,
        cylinderConfiguration.SourceCylinderPressure⟩]
   else
    [⟨"source", cylinderConfiguration.SourceCylinderVolume,
        cylinderConfiguration.SourceCylinderPressure⟩],
   if cylinderConfiguration.DestinationCylinderIsTwinset then
    [⟨"left", cylinderConfiguration.DestinationCylinderVolume / 2,
        cylinderConfiguration.DestinationCylinderPressure⟩,
     ⟨"right", cylinderConfiguration.DestinationCylinderVolume / 2,
        cylinderConfiguration.DestinationCylinderPressure⟩]
   else
    [⟨"destination", cylinderConfiguration.DestinationCylinderVolume,
        cylinderConfiguration.DestinationCylinderPressure⟩])

/-- `CylinderSummary` has information about the end result of gas transfers. -/
structure CylinderSummary where
  Description : String
  DestinationCylinderGasVolume : ℝ
  DestinationCylinderGasWeight : ℝ
  DestinationCylinderPressure : ℝ
  SourceCylinderGasVolume : ℝ
  SourceCylinderPressure : ℝ
  SourceCylinderGasWeight : ℝ

/-- The mutable state of `equalizeAndReport`'s pairwise loop: the two cylinder
slices, the step counter and the output produced so far. -/
structure ScenState where
  sources : List Cylinder
  dests : List Cylinder
  stepI : Nat
  log : List LogEntry

/-- One iteration of the inner loop of `equalizeAndReport`:
`destinationCylinders[destinationI].Equalize(&sourceCylinders[sourceI], ...)`,
plus the verbose "Step ..." line. The pairwise `Equalize` call receives the
group `[destination, source]` and its writeback updates both slots. -/
noncomputable def pairStep (gasSystem : GasSystem) (gasComposition : GasComposition)
    (temperature : ℝ) (verbose debug : Bool) (st : ScenState)
    (sourceI destinationI : Nat) : ScenState :=
  let stepI := st.stepI + 1
  let dcyl := st.dests.getD destinationI default
  let scyl := st.sources.getD sourceI default
  let destinationCylinderGasVolumeBefore := dcyl.GasVolume gasSystem gasComposition temperature
  let r := dcyl.Equalize scyl gasSystem gasComposition temperature verbose debug
  let dests' := st.dests.set destinationI (r.1.getD 0 default)
  let sources' := st.sources.set sourceI (r.1.getD 1 default)
  { sources := sources'
    dests := dests'
    stepI := stepI
    log := st.log ++ r.2 ++
      (if verbose then
        [LogEntry.step stepI scyl.Description dcyl.Description
          ((dests'.getD destinationI default).GasVolume gasSystem gasComposition temperature
            - destinationCylinderGasVolumeBefore)]
       else []) }

/-- The two nested loops of `equalizeAndReport`: outer over source cylinders,
inner over destination cylinders. -/
noncomputable def pairLoop (gasSystem : GasSystem) (gasComposition : GasComposition)
    (temperature : ℝ) (verbose debug : Bool) (st0 : ScenState) : ScenState :=
  (List.range st0.sources.length).foldl
    (fun st sourceI =>
      (List.range st0.dests.length).foldl
        (fun st destinationI =>
          pairStep gasSystem gasComposition temperature verbose debug st sourceI destinationI)
        st)
    st0

/-- `equalizeAndReport` runs one scenario: builds the cylinder lists, performs
every pairwise source/destination equalization in source-major,
destination-minor order, then equalizes the destination group, and returns the
summary (with the output the run would print). -/
noncomputable def equalizeAndReport (cylinderConfiguration : CylinderConfiguration)
    (gasSystem : GasSystem) (gasComposition : GasComposition) (temperature : ℝ)
    (verbose debug printSourceSummary : Bool) : CylinderSummary × List LogEntry :=
  let sourceCylinders0 := (initializeCylinders cylinderConfiguration).1
  let destinationCylinders0 := (initializeCylinders cylinderConfiguration).2
  let preLog :=
    if printSourceSummary && verbose then
      [LogEntry.beforeTransfers
        (CylinderList.TotalGasVolume sourceCylinders0 gasSystem gasComposition temperature)
        cylinderConfiguration.SourceCylinderPressure
        (CylinderList.TotalGasVolume destinationCylinders0 gasSystem gasComposition temperature)
        cylinderConfiguration.DestinationCylinderPressure]
    else []
  let description :=
    if cylinderConfiguration.DestinationCylinderIsTwinset
        && cylinderConfiguration.SourceCylinderIsTwinset then
      "both manifolds closed"
    else if cylinderConfiguration.DestinationCylinderIsTwinset then
      "destination manifold closed"
    else if cylinderConfiguration.SourceCylinderIsTwinset then
      "source manifold closed"
    else
      "all manifolds open"
  let st := pairLoop gasSystem gasComposition temperature verbose debug
    { sources := sourceCylinders0
      dests := destinationCylinders0
      stepI := 0
      log := preLog ++ [LogEntry.equalizingWith description] }
  let rFinal := Equalize st.dests gasSystem gasComposition temperature verbose debug
  let sourceCylinders := st.sources
  let destinationCylinders := rFinal.1
  let sourceCylinderGasVolume :=
    CylinderList.TotalGasVolume sourceCylinders gasSystem gasComposition temperature
  let sourceCylinderPressure :=
    PressureFromVolumes sourceCylinderGasVolume (CylinderList.TotalVolume sourceCylinders)
  let destinationCylinderGasVolume :=
    CylinderList.TotalGasVolume destinationCylinders gasSystem gasComposition temperature
  let destinationCylinderPressure :=
    PressureFromVolumes destinationCylinderGasVolume
      (CylinderList.TotalVolume destinationCylinders)
  ({ Description := description
     DestinationCylinderGasVolume := destinationCylinderGasVolume
     DestinationCylinderGasWeight :=
       CylinderList.TotalGasWeight destinationCylinders gasComposition temperature
     DestinationCylinderPressure := destinationCylinderPressure
     SourceCylinderGasVolume := sourceCylinderGasVolume
     SourceCylinderGasWeight :=
       CylinderList.TotalGasWeight sourceCylinders gasComposition temperature
     SourceCylinderPressure := sourceCylinderPressure },
   st.log ++ rFinal.2 ++
     (if debug then
       [LogEntry.groupGasVolumes
         (CylinderList.TotalGasVolume st.sources gasSystem gasComposition temperature)
         (CylinderList.TotalGasVolume rFinal.1 gasSystem gasComposition temperature)]
      else []) ++
     [LogEntry.finalReport sourceCylinderGasVolume sourceCylinderPressure
       destinationCylinderGasVolume destinationCylinderPressure])

/-- Modelled from the spec (§4.3 scenario algorithm, testable property "path
independence"): run the pairwise equalization steps in an explicitly given
order of (source index, destination index) pairs — each step a pairwise
`equalize` on exactly that pair — then `equalize` the full destination group
alone, and return the scenario summary. With the source-major,
destination-minor order this is the implemented algorithm; other orders are
the permutations the spec quantifies over. Flags are irrelevant to the values,
so the plain (non-verbose, non-debug) run is used. -/
noncomputable def scenarioWithOrder (order : List (Nat × Nat))
    (cylinderConfiguration : CylinderConfiguration) (gasSystem : GasSystem)
    (gasComposition : GasComposition) (temperature : ℝ) : CylinderSummary :=
  let sourceCylinders0 := (initializeCylinders cylinderConfiguration).1
  let destinationCylinders0 := (initializeCylinders cylinderConfiguration).2
  let description :=
    if cylinderConfiguration.DestinationCylinderIsTwinset
        && cylinderConfiguration.SourceCylinderIsTwinset then
      "both manifolds closed"
    else if cylinderConfiguration.DestinationCylinderIsTwinset then
      "destination manifold closed"
    else if cylinderConfiguration.SourceCylinderIsTwinset then
      "source manifold closed"
    else
      "all manifolds open"
  let st := order.foldl
    (fun st p =>
      pairStep gasSystem gasComposition temperature false false st p.1 p.2)
    { sources := sourceCylinders0
      dests := destinationCylinders0
      stepI := 0
      log := [] }
  let destinationCylinders :=
    (Equalize st.dests gasSystem gasComposition temperature false false).1
  let sourceCylinders := st.sources
  let sourceCylinderGasVolume :=
    CylinderList.TotalGasVolume sourceCylinders gasSystem gasComposition temperature
  let destinationCylinderGasVolume :=
    CylinderList.TotalGasVolume destinationCylinders gasSystem gasComposition temperature
  { Description := description
    DestinationCylinderGasVolume := destinationCylinderGasVolume
    DestinationCylinderGasWeight :=
      CylinderList.TotalGasWeight destinationCylinders gasComposition temperature
    DestinationCylinderPressure :=
      PressureFromVolumes destinationCylinderGasVolume
        (CylinderList.TotalVolume destinationCylinders)
    SourceCylinderGasVolume := sourceCylinderGasVolume
    SourceCylinderGasWeight :=
      CylinderList.TotalGasWeight sourceCylinders gasComposition temperature
    SourceCylinderPressure :=
      PressureFromVolumes sourceCylinderGasVolume
        (CylinderList.TotalVolume sourceCylinders) }

/-- Modelled from the spec: the source-major, destination-minor order of
(source index, destination index) pairs — outer loop over sources, inner loop
over destinations. -/
def sourceMajorOrder (sourceCount destinationCount : Nat) : List (Nat × Nat) :=
  (List.range sourceCount).flatMap fun i =>
    (List.range destinationCount).map fun j => (i, j)

/-- Modelled from the spec (§4.3): the scenario algorithm as the spec words it,
namely `scenarioWithOrder` at the implemented source-major order. -/
noncomputable def scenarioSpec (cylinderConfiguration : CylinderConfiguration)
    (gasSystem : GasSystem) (gasComposition : GasComposition) (temperature : ℝ) :
    CylinderSummary :=
  scenarioWithOrder
    (sourceMajorOrder (initializeCylinders cylinderConfiguration).1.length
      (initializeCylinders cylinderConfiguration).2.length)
    cylinderConfiguration gasSystem gasComposition temperature

/-! ## Helper lemmas -/

lemma Equalize_fst (cylinders : List Cylinder) (gasSystem : GasSystem)
    (gasComposition : GasComposition) (temperature : ℝ) (verbose debug : Bool) :
    (Equalize cylinders gasSystem gasComposition temperature verbose debug).1
      = cylinders.map fun c =>
          { c with Pressure := pressureAfterEqualize cylinders gasSystem gasComposition temperature } :=
  rfl

lemma getD_map_of_lt {α : Type} [Inhabited α] (l : List α) (f : α → α) (i : Nat)
    (h : i < l.length) : (l.map f).getD i default = f (l.getD i default) := by
  rw [List.getD_eq_getElem?_getD, List.getElem?_map, List.getElem?_eq_getElem h,
    List.getD_eq_getElem?_getD, List.getElem?_eq_getElem h]
  rfl

lemma sum_map_mul_const {α : Type} (l : List α) (g : α → ℝ) (r : ℝ) :
    (l.map fun x => g x * r).sum = (l.map g).sum * r := by
  induction l with
  | nil => simp
  | cons hd tl ih => simp [ih, add_mul]

lemma ideal_gasVolume_map (cylinders : List Cylinder) (gasComposition : GasComposition)
    (temperature : ℝ) :
    (cylinders.map fun c => c.GasVolume GasSystem.idealGas gasComposition temperature)
      = cylinders.map fun c => c.CylinderVolume * c.Pressure := by
  simp [Cylinder.GasVolume]

lemma pressureAfterEqualize_ideal (cylinders : List Cylinder)
    (gasComposition : GasComposition) (temperature : ℝ) :
    pressureAfterEqualize cylinders GasSystem.idealGas gasComposition temperature
      = (cylinders.map fun c =>
          c.GasVolume GasSystem.idealGas gasComposition temperature).sum
        / (cylinders.map fun c => c.CylinderVolume).sum := by
  simp [pressureAfterEqualize, PressureFromVolumes]

lemma map_update_mul (cylinders : List Cylinder) (p : ℝ) :
    ((cylinders.map fun c => { c with Pressure := p }).map
        fun c => c.CylinderVolume * c.Pressure)
      = cylinders.map fun c => c.CylinderVolume * p := by
  induction cylinders with
  | nil => rfl
  | cons hd tl ih => simpa using ih

lemma map_update_vol (cylinders : List Cylinder) (p : ℝ) :
    ((cylinders.map fun c => { c with Pressure := p }).map fun c => c.CylinderVolume)
      = cylinders.map fun c => c.CylinderVolume := by
  induction cylinders with
  | nil => rfl
  | cons hd tl ih => simpa using ih

lemma map_update_desc (cylinders : List Cylinder) (p : ℝ) :
    ((cylinders.map fun c => { c with Pressure := p }).map fun c => c.Description)
      = cylinders.map fun c => c.Description := by
  induction cylinders with
  | nil => rfl
  | cons hd tl ih => simpa using ih

lemma map_update_twice (cylinders : List Cylinder) (p q : ℝ) :
    ((cylinders.map fun c => { c with Pressure := p }).map fun c => { c with Pressure := q })
      = cylinders.map fun c => { c with Pressure := q } := by
  induction cylinders with
  | nil => rfl
  | cons hd tl ih => simpa using ih

lemma le_cbrt_of_cube_le {r x : ℝ} (hr : 0 ≤ r) (h : r ^ 3 ≤ x) : r ≤ x ^ ((1:ℝ)/3) := by
  have hrepr : ((r ^ 3 : ℝ)) ^ ((1:ℝ)/3) = r := by
    rw [← Real.rpow_natCast r 3, ← Real.rpow_mul hr]
    norm_num
  calc r = ((r ^ 3 : ℝ)) ^ ((1:ℝ)/3) := hrepr.symm
    _ ≤ x ^ ((1:ℝ)/3) := Real.rpow_le_rpow (by positivity) h (by norm_num)

lemma cbrt_le_of_le_cube {r x : ℝ} (hr : 0 ≤ r) (hx : 0 ≤ x) (h : x ≤ r ^ 3) :
    x ^ ((1:ℝ)/3) ≤ r := by
  have hrepr : ((r ^ 3 : ℝ)) ^ ((1:ℝ)/3) = r := by
    rw [← Real.rpow_natCast r 3, ← Real.rpow_mul hr]
    norm_num
  calc x ^ ((1:ℝ)/3) ≤ ((r ^ 3 : ℝ)) ^ ((1:ℝ)/3) := Real.rpow_le_rpow hx h (by norm_num)
    _ = r := hrepr

lemma nitrogenA : (VanDerWaalsConstants Gas.nitrogen).A = 1.370 := rfl

lemma nitrogenB : (VanDerWaalsConstants Gas.nitrogen).B = 0.0387 := rfl

/-- Rational interval bounds for `GasToMoles` at nitrogen constants,
V = 1 L, P = 200 bar, T = 293.15 K: the Cardano closed form is pinned down by
bounding the square root and the cube root between rational approximations. -/
lemma gasToMoles_200_bounds :
    8.18339989875 ≤ GasToMoles 1 200 (VanDerWaalsConstants Gas.nitrogen) 293.15
    ∧ GasToMoles 1 200 (VanDerWaalsConstants Gas.nitrogen) 293.15 ≤ 8.18339989877 := by
  have hs1 : subterm1 1 200 (VanDerWaalsConstants Gas.nitrogen) 293.15
      = -0.66286561666655 := by
    norm_num [subterm1, nitrogenA, nitrogenB, R]
  have hs2 : subterm2 1 200 (VanDerWaalsConstants Gas.nitrogen) 293.15
      = 3.228951378605 := by
    norm_num [subterm2, nitrogenA, nitrogenB, R]
  have hql : (11.623305016047:ℝ)
      ≤ Real.sqrt (4*(3.228951378605:ℝ)^3 + (-0.66286561666655:ℝ)^2) :=
    Real.le_sqrt_of_sq_le (by norm_num)
  have hqh : Real.sqrt (4*(3.228951378605:ℝ)^3 + (-0.66286561666655:ℝ)^2)
      ≤ 11.623305016048 :=
    Real.sqrt_le_iff.mpr ⟨by norm_num, by norm_num⟩
  have hSl : (2.221310767153:ℝ)
      ≤ subterm3 1 200 (VanDerWaalsConstants Gas.nitrogen) 293.15 := by
    rw [subterm3, hs1, hs2]
    apply le_cbrt_of_cube_le (by norm_num)
    have hc : ((2.221310767153:ℝ))^3 ≤ -0.66286561666655 + 11.623305016047 := by norm_num
    linarith
  have hSh : subterm3 1 200 (VanDerWaalsConstants Gas.nitrogen) 293.15
      ≤ 2.221310767154 := by
    rw [subterm3, hs1, hs2]
    apply cbrt_le_of_le_cube (by norm_num) (by linarith)
    have hc : (-0.66286561666655:ℝ) + 11.623305016048 ≤ ((2.221310767154:ℝ))^3 := by norm_num
    linarith
  have hS0 : (0:ℝ) < subterm3 1 200 (VanDerWaalsConstants Gas.nitrogen) 293.15 :=
    lt_of_lt_of_le (by norm_num) hSl
  rw [GasToMoles, hs2, nitrogenA, nitrogenB]
  constructor
  · have t1 : (0.26457:ℝ) * 2.221310767153 / (1.370 * 0.0387)
        ≤ 0.26457 * subterm3 1 200 (VanDerWaalsConstants Gas.nitrogen) 293.15
          / (1.370 * 0.0387) := by gcongr
    have t2 : (0.41997:ℝ) * 3.228951378605
          / (1.370 * 0.0387 * subterm3 1 200 (VanDerWaalsConstants Gas.nitrogen) 293.15)
        ≤ 0.41997 * 3.228951378605 / (1.370 * 0.0387 * 2.221310767153) := by gcongr
    have hfinal : (8.18339989875:ℝ)
        ≤ 0.26457 * 2.221310767153 / (1.370 * 0.0387)
          - 0.41997 * 3.228951378605 / (1.370 * 0.0387 * 2.221310767153)
          + 0.33333 * 1 / 0.0387 := by norm_num
    linarith
  · have t1 : (0.26457:ℝ) * subterm3 1 200 (VanDerWaalsConstants Gas.nitrogen) 293.15
          / (1.370 * 0.0387)
        ≤ 0.26457 * 2.221310767154 / (1.370 * 0.0387) := by gcongr
    have t2 : (0.41997:ℝ) * 3.228951378605 / (1.370 * 0.0387 * 2.221310767154)
        ≤ 0.41997 * 3.228951378605
          / (1.370 * 0.0387 * subterm3 1 200 (VanDerWaalsConstants Gas.nitrogen) 293.15) := by
      gcongr
    have hfinal : 0.26457 * 2.221310767154 / (1.370 * 0.0387)
          - 0.41997 * 3.228951378605 / (1.370 * 0.0387 * 2.221310767154)
          + 0.33333 * 1 / 0.0387 ≤ (8.18339989877:ℝ) := by norm_num
    linarith

/-- Rational interval bounds for `MolesToPressure` at nitrogen constants,
V = 1 L, T = 293.15 K, for a mole count in the range produced by
`gasToMoles_200_bounds`. -/
lemma molesToPressure_first_bounds (m : ℝ) (h1 : 8.18339989875 ≤ m) (h2 : m ≤ 8.18339989877) :
    200.0043784421 ≤ MolesToPressure 1 m 293.15 (VanDerWaalsConstants Gas.nitrogen)
    ∧ MolesToPressure 1 m 293.15 (VanDerWaalsConstants Gas.nitrogen) ≤ 200.0043784433 := by
  have hm : (0.0387:ℝ) * m - 1 < 0 := by linarith
  have heq : MolesToPressure 1 m 293.15 (VanDerWaalsConstants Gas.nitrogen)
      = m * (-(1.37 * m) + 24.360765 / (1 - 0.0387 * m)) := by
    rw [MolesToPressure, nitrogenA, nitrogenB]
    have hrw : (0.0387:ℝ) * m - 1 = -(1 - 0.0387 * m) := by ring
    rw [hrw, div_neg]
    simp only [R]
    ring
  rw [heq]
  have hd_lo : (1:ℝ) - 0.0387 * 8.18339989877 ≤ 1 - 0.0387 * m := by linarith
  have hd_hi : (1:ℝ) - 0.0387 * m ≤ 1 - 0.0387 * 8.18339989875 := by linarith
  have hq_hi : (24.360765:ℝ) / (1 - 0.0387 * m)
      ≤ 24.360765 / (1 - 0.0387 * 8.18339989877) := by
    gcongr
  have hq_lo : (24.360765:ℝ) / (1 - 0.0387 * 8.18339989875)
      ≤ 24.360765 / (1 - 0.0387 * m) := by
    gcongr
  have hf_lo : (24.4402547739:ℝ) ≤ -(1.37 * m) + 24.360765 / (1 - 0.0387 * m) := by
    have hc : (24.4402547739:ℝ) ≤ -(1.37 * 8.18339989877)
        + 24.360765 / (1 - 0.0387 * 8.18339989875) := by norm_num
    linarith
  have hf_hi : -(1.37 * m) + 24.360765 / (1 - 0.0387 * m) ≤ (24.44025477397:ℝ) := by
    have hc : -(1.37 * 8.18339989875) + 24.360765 / (1 - 0.0387 * 8.18339989877)
        ≤ (24.44025477397:ℝ) := by norm_num
    linarith
  constructor
  · have hp := mul_le_mul h1 hf_lo (by norm_num) (by linarith)
    have hc : (200.0043784421:ℝ) ≤ 8.18339989875 * 24.4402547739 := by norm_num
    linarith
  · have hp := mul_le_mul h2 hf_hi (by linarith) (by norm_num)
    have hc : (8.18339989877:ℝ) * 24.44025477397 ≤ 200.0043784433 := by norm_num
    linarith

/-- Rational interval bounds for `GasToMoles` at nitrogen constants, V = 1 L,
T = 293.15 K, for a pressure in the range produced by
`molesToPressure_first_bounds` (the pressure after a first equalization). -/
lemma gasToMoles_second_bounds (p : ℝ) (hp1 : 200.0043784421 ≤ p) (hp2 : p ≤ 200.0043784433) :
    8.18354706177 ≤ GasToMoles 1 p (VanDerWaalsConstants Gas.nitrogen) 293.15
    ∧ GasToMoles 1 p (VanDerWaalsConstants Gas.nitrogen) 293.15 ≤ 8.18354706189 := by
  have hs1_lo : (-0.66264407512136:ℝ)
      ≤ subterm1 1 p (VanDerWaalsConstants Gas.nitrogen) 293.15 := by
    rw [subterm1, nitrogenA, nitrogenB]
    simp only [R]
    nlinarith [hp1, hp2]
  have hs1_hi : subterm1 1 p (VanDerWaalsConstants Gas.nitrogen) 293.15
      ≤ (-0.66264407506063:ℝ) := by
    rw [subterm1, nitrogenA, nitrogenB]
    simp only [R]
    nlinarith [hp1, hp2]
  have hs2_lo : (3.22897833013117:ℝ)
      ≤ subterm2 1 p (VanDerWaalsConstants Gas.nitrogen) 293.15 := by
    rw [subterm2, nitrogenA, nitrogenB]
    simp only [R]
    nlinarith [hp1, hp2]
  have hs2_hi : subterm2 1 p (VanDerWaalsConstants Gas.nitrogen) 293.15
      ≤ (3.22897833013857:ℝ) := by
    rw [subterm2, nitrogenA, nitrogenB]
    simp only [R]
    nlinarith [hp1, hp2]
  have hD_lo : (135.104297869102:ℝ)
      ≤ 4 * (subterm2 1 p (VanDerWaalsConstants Gas.nitrogen) 293.15) ^ 3
        + (subterm1 1 p (VanDerWaalsConstants Gas.nitrogen) 293.15) ^ 2 := by
    have h3 : ((3.22897833013117:ℝ)) ^ 3
        ≤ (subterm2 1 p (VanDerWaalsConstants Gas.nitrogen) 293.15) ^ 3 :=
      pow_le_pow_left₀ (by norm_num) hs2_lo 3
    have h4 : ((0.66264407506063:ℝ)) ^ 2
        ≤ (subterm1 1 p (VanDerWaalsConstants Gas.nitrogen) 293.15) ^ 2 := by
      nlinarith [hs1_hi, hs1_lo]
    nlinarith [h3, h4]
  have hD_hi : 4 * (subterm2 1 p (VanDerWaalsConstants Gas.nitrogen) 293.15) ^ 3
        + (subterm1 1 p (VanDerWaalsConstants Gas.nitrogen) 293.15) ^ 2
      ≤ (135.104297870109:ℝ) := by
    have h3 : (subterm2 1 p (VanDerWaalsConstants Gas.nitrogen) 293.15) ^ 3
        ≤ ((3.22897833013857:ℝ)) ^ 3 :=
      pow_le_pow_left₀ (by nlinarith [hs2_lo]) hs2_hi 3
    have h4 : (subterm1 1 p (VanDerWaalsConstants Gas.nitrogen) 293.15) ^ 2
        ≤ ((0.66264407512136:ℝ)) ^ 2 := by
      nlinarith [hs1_hi, hs1_lo]
    nlinarith [h3, h4]
  have hql2 : (11.623437437741:ℝ)
      ≤ Real.sqrt (4 * (subterm2 1 p (VanDerWaalsConstants Gas.nitrogen) 293.15) ^ 3
        + (subterm1 1 p (VanDerWaalsConstants Gas.nitrogen) 293.15) ^ 2) :=
    Real.le_sqrt_of_sq_le (by nlinarith [hD_lo])
  have hqh2 : Real.sqrt (4 * (subterm2 1 p (VanDerWaalsConstants Gas.nitrogen) 293.15) ^ 3
        + (subterm1 1 p (VanDerWaalsConstants Gas.nitrogen) 293.15) ^ 2)
      ≤ (11.623437437786:ℝ) :=
    Real.sqrt_le_iff.mpr ⟨by norm_num, by nlinarith [hD_hi]⟩
  have hSl : (2.221334679025:ℝ)
      ≤ subterm3 1 p (VanDerWaalsConstants Gas.nitrogen) 293.15 := by
    rw [subterm3]
    apply le_cbrt_of_cube_le (by norm_num)
    have hc : ((2.221334679025:ℝ)) ^ 3 ≤ -0.66264407512136 + 11.623437437741 := by norm_num
    linarith [hs1_lo, hql2]
  have hSh : subterm3 1 p (VanDerWaalsConstants Gas.nitrogen) 293.15
      ≤ (2.221334679033:ℝ) := by
    rw [subterm3]
    apply cbrt_le_of_le_cube (by norm_num) (by linarith [hs1_lo, hql2])
    have hc : (-0.66264407506063:ℝ) + 11.623437437786 ≤ ((2.221334679033:ℝ)) ^ 3 := by
      norm_num
    linarith [hs1_hi, hqh2]
  have hS0 : (0:ℝ) < subterm3 1 p (VanDerWaalsConstants Gas.nitrogen) 293.15 :=
    lt_of_lt_of_le (by norm_num) hSl
  rw [GasToMoles, nitrogenA, nitrogenB]
  constructor
  · have e1 : (0.26457:ℝ) * 2.221334679025 / (1.370 * 0.0387)
        ≤ 0.26457 * subterm3 1 p (VanDerWaalsConstants Gas.nitrogen) 293.15
          / (1.370 * 0.0387) := by gcongr
    have e2 : (0.41997:ℝ) * subterm2 1 p (VanDerWaalsConstants Gas.nitrogen) 293.15
          / (1.370 * 0.0387 * subterm3 1 p (VanDerWaalsConstants Gas.nitrogen) 293.15)
        ≤ 0.41997 * 3.22897833013857 / (1.370 * 0.0387 * 2.221334679025) := by
      gcongr
    have hfinal : (8.18354706177:ℝ)
        ≤ 0.26457 * 2.221334679025 / (1.370 * 0.0387)
          - 0.41997 * 3.22897833013857 / (1.370 * 0.0387 * 2.221334679025)
          + 0.33333 * 1 / 0.0387 := by norm_num
    linarith
  · have e1 : (0.26457:ℝ) * subterm3 1 p (VanDerWaalsConstants Gas.nitrogen) 293.15
          / (1.370 * 0.0387)
        ≤ 0.26457 * 2.221334679033 / (1.370 * 0.0387) := by gcongr
    have e2 : (0.41997:ℝ) * 3.22897833013117 / (1.370 * 0.0387 * 2.221334679033)
        ≤ 0.41997 * subterm2 1 p (VanDerWaalsConstants Gas.nitrogen) 293.15
          / (1.370 * 0.0387 * subterm3 1 p (VanDerWaalsConstants Gas.nitrogen) 293.15) := by
      gcongr
    have hfinal : 0.26457 * 2.221334679033 / (1.370 * 0.0387)
          - 0.41997 * 3.22897833013117 / (1.370 * 0.0387 * 2.221334679033)
          + 0.33333 * 1 / 0.0387 ≤ (8.18354706189:ℝ) := by norm_num
    linarith

/-- Rational interval bounds for `MolesToPressure` at nitrogen constants,
V = 1 L, T = 293.15 K, for a mole count in the range produced by
`gasToMoles_second_bounds`. -/
lemma molesToPressure_second_bounds (m : ℝ) (h1 : 8.18354706177 ≤ m)
    (h2 : m ≤ 8.18354706189) :
    200.0087569857 ≤ MolesToPressure 1 m 293.15 (VanDerWaalsConstants Gas.nitrogen)
    ∧ MolesToPressure 1 m 293.15 (VanDerWaalsConstants Gas.nitrogen) ≤ 200.0087569921 := by
  have hm : (0.0387:ℝ) * m - 1 < 0 := by linarith
  have heq : MolesToPressure 1 m 293.15 (VanDerWaalsConstants Gas.nitrogen)
      = m * (-(1.37 * m) + 24.360765 / (1 - 0.0387 * m)) := by
    rw [MolesToPressure, nitrogenA, nitrogenB]
    have hrw : (0.0387:ℝ) * m - 1 = -(1 - 0.0387 * m) := by ring
    rw [hrw, div_neg]
    simp only [R]
    ring
  rw [heq]
  have hd_lo : (1:ℝ) - 0.0387 * 8.18354706189 ≤ 1 - 0.0387 * m := by linarith
  have hd_hi : (1:ℝ) - 0.0387 * m ≤ 1 - 0.0387 * 8.18354706177 := by linarith
  have hq_hi : (24.360765:ℝ) / (1 - 0.0387 * m)
      ≤ 24.360765 / (1 - 0.0387 * 8.18354706189) := by
    gcongr
  have hq_lo : (24.360765:ℝ) / (1 - 0.0387 * 8.18354706177)
      ≤ 24.360765 / (1 - 0.0387 * m) := by
    gcongr
  have hf_lo : (24.44035031216:ℝ) ≤ -(1.37 * m) + 24.360765 / (1 - 0.0387 * m) := by
    have hc : (24.44035031216:ℝ) ≤ -(1.37 * 8.18354706189)
        + 24.360765 / (1 - 0.0387 * 8.18354706177) := by norm_num
    linarith
  have hf_hi : -(1.37 * m) + 24.360765 / (1 - 0.0387 * m) ≤ (24.44035031258:ℝ) := by
    have hc : -(1.37 * 8.18354706177) + 24.360765 / (1 - 0.0387 * 8.18354706189)
        ≤ (24.44035031258:ℝ) := by norm_num
    linarith
  constructor
  · have hp := mul_le_mul h1 hf_lo (by norm_num) (by linarith)
    have hc : (200.0087569857:ℝ) ≤ 8.18354706177 * 24.44035031216 := by norm_num
    linarith
  · have hp := mul_le_mul h2 hf_hi (by linarith) (by norm_num)
    have hc : (8.18354706189:ℝ) * 24.44035031258 ≤ 200.0087569921 := by norm_num
    linarith

lemma range_two : List.range 2 = [0, 1] := rfl

lemma length_two (a b : Cylinder) : ([a, b] : List Cylinder).length = 2 := rfl

lemma length_one (a : Cylinder) : ([a] : List Cylinder).length = 1 := rfl

/-! ## Theorems for the claims -/

/-- C3: after `Equalize`, every cylinder in the group has exactly the same
pressure value (any mode, any composition, any temperature). -/
theorem uniform_pressure_after_equalize (cylinders : List Cylinder) (gasSystem : GasSystem)
    (gasComposition : GasComposition) (temperature : ℝ) (verbose debug : Bool) (i j : Nat)
    (hi : i < (Equalize cylinders gasSystem gasComposition temperature verbose debug).1.length)
    (hj : j < (Equalize cylinders gasSystem gasComposition temperature verbose debug).1.length) :
    (((Equalize cylinders gasSystem gasComposition temperature verbose debug).1.getD i
        default).Pressure)
      = (((Equalize cylinders gasSystem gasComposition temperature verbose debug).1.getD j
        default).Pressure) := by
  have hi' : i < cylinders.length := by simpa [Equalize_fst] using hi
  have hj' : j < cylinders.length := by simpa [Equalize_fst] using hj
  rw [Equalize_fst, getD_map_of_lt _ _ _ hi', getD_map_of_lt _ _ _ hj']

/-- Witness for C3 at a concrete two-cylinder group. -/
theorem uniform_pressure_after_equalize_witness :
    (0 < (Equalize [⟨"source", 12, 232⟩, ⟨"destination", 12, 100⟩] GasSystem.idealGas []
        293.15 false false).1.length
      ∧ 1 < (Equalize [⟨"source", 12, 232⟩, ⟨"destination", 12, 100⟩] GasSystem.idealGas []
        293.15 false false).1.length)
    ∧ (((Equalize [⟨"source", 12, 232⟩, ⟨"destination", 12, 100⟩] GasSystem.idealGas []
        293.15 false false).1.getD 0 default).Pressure)
      = (((Equalize [⟨"source", 12, 232⟩, ⟨"destination", 12, 100⟩] GasSystem.idealGas []
        293.15 false false).1.getD 1 default).Pressure) :=
  ⟨⟨by simp [Equalize_fst], by simp [Equalize_fst]⟩,
    uniform_pressure_after_equalize [⟨"source", 12, 232⟩, ⟨"destination", 12, 100⟩]
      GasSystem.idealGas [] 293.15 false false 0 1
      (by simp [Equalize_fst]) (by simp [Equalize_fst])⟩

/-- C9: `Equalize` never changes a cylinder's `Description` or
`CylinderVolume`; the pressure is the only field it writes. -/
theorem equalize_only_writes_pressure (cylinders : List Cylinder) (gasSystem : GasSystem)
    (gasComposition : GasComposition) (temperature : ℝ) (verbose debug : Bool) :
    ((Equalize cylinders gasSystem gasComposition temperature verbose debug).1.map
        fun c => c.Description) = (cylinders.map fun c => c.Description)
    ∧ ((Equalize cylinders gasSystem gasComposition temperature verbose debug).1.map
        fun c => c.CylinderVolume) = (cylinders.map fun c => c.CylinderVolume) := by
  constructor <;> simp [Equalize_fst, List.map_map, Function.comp]

/-- C7: in ideal-gas mode, `GasVolume` is exactly `CylinderVolume * Pressure`,
and `Equalize` sets every cylinder's pressure to exactly the sum of the
group's gas volumes divided by the sum of the group's cylinder volumes. -/
theorem ideal_gas_volume_and_equalized_pressure :
    (∀ (c1 : Cylinder) (gasComposition : GasComposition) (temperature : ℝ),
      c1.GasVolume GasSystem.idealGas gasComposition temperature
        = c1.CylinderVolume * c1.Pressure)
    ∧ ∀ (cylinders : List Cylinder) (gasComposition : GasComposition) (temperature : ℝ)
        (verbose debug : Bool) (i : Nat),
        i < (Equalize cylinders GasSystem.idealGas gasComposition temperature verbose
              debug).1.length →
        (((Equalize cylinders GasSystem.idealGas gasComposition temperature verbose
              debug).1.getD i default).Pressure)
          = (cylinders.map fun c =>
              c.GasVolume GasSystem.idealGas gasComposition temperature).sum
            / (cylinders.map fun c => c.CylinderVolume).sum := by
  constructor
  · intro c1 gasComposition temperature
    simp [Cylinder.GasVolume]
  · intro cylinders gasComposition temperature verbose debug i hi
    have hi' : i < cylinders.length := by simpa [Equalize_fst] using hi
    rw [Equalize_fst, getD_map_of_lt _ _ _ hi']
    simp [pressureAfterEqualize, PressureFromVolumes]

/-- Witness for C7 at a concrete group. -/
theorem ideal_gas_volume_and_equalized_pressure_witness :
    ((⟨"source", 12, 232⟩ : Cylinder).GasVolume GasSystem.idealGas [] 293.15 = 12 * 232)
    ∧ (0 < (Equalize [⟨"destination", 10, 100⟩] GasSystem.idealGas [] 293.15 false
        false).1.length
      ∧ (((Equalize [⟨"destination", 10, 100⟩] GasSystem.idealGas [] 293.15 false
          false).1.getD 0 default).Pressure)
        = (([⟨"destination", 10, 100⟩] : List Cylinder).map fun c =>
            c.GasVolume GasSystem.idealGas [] 293.15).sum
          / (([⟨"destination", 10, 100⟩] : List Cylinder).map fun c =>
              c.CylinderVolume).sum) :=
  ⟨ideal_gas_volume_and_equalized_pressure.1 ⟨"source", 12, 232⟩ [] 293.15,
    by simp [Equalize_fst],
    ideal_gas_volume_and_equalized_pressure.2 [⟨"destination", 10, 100⟩] [] 293.15 false false 0
      (by simp [Equalize_fst])⟩

/-- C1 (amended): in ideal-gas mode, `Equalize` preserves the group's total
(exact) gas quantity: the sum of `CylinderVolume * Pressure` over the group is
the same before and after, whenever the total cylinder volume is nonzero. -/
theorem equalize_conserves_ideal_gas_volume (cylinders : List Cylinder)
    (gasComposition : GasComposition) (temperature : ℝ) (verbose debug : Bool)
    (h : (cylinders.map fun c => c.CylinderVolume).sum ≠ 0) :
    ((Equalize cylinders GasSystem.idealGas gasComposition temperature verbose debug).1.map
        fun c => c.CylinderVolume * c.Pressure).sum
      = (cylinders.map fun c => c.CylinderVolume * c.Pressure).sum := by
  rw [Equalize_fst, map_update_mul, sum_map_mul_const, pressureAfterEqualize_ideal,
    ideal_gasVolume_map, mul_comm, div_mul_cancel₀ _ h]

/-- Witness for C1's theorem at a concrete two-cylinder group. -/
theorem equalize_conserves_ideal_gas_volume_witness :
    ((([⟨"source", 12, 232⟩, ⟨"destination", 12, 100⟩] : List Cylinder).map
        fun c => c.CylinderVolume).sum ≠ 0)
    ∧ ((Equalize [⟨"source", 12, 232⟩, ⟨"destination", 12, 100⟩] GasSystem.idealGas []
          293.15 false false).1.map fun c => c.CylinderVolume * c.Pressure).sum
      = (([⟨"source", 12, 232⟩, ⟨"destination", 12, 100⟩] : List Cylinder).map
          fun c => c.CylinderVolume * c.Pressure).sum :=
  ⟨by norm_num,
    equalize_conserves_ideal_gas_volume [⟨"source", 12, 232⟩, ⟨"destination", 12, 100⟩]
      [] 293.15 false false (by norm_num)⟩

/-- C5 (amended): in ideal-gas mode, `Equalize` is idempotent: running it again
on the result (same mode, composition, temperature) returns the group
unchanged, whenever the total cylinder volume is nonzero. -/
theorem equalize_idempotent_ideal (cylinders : List Cylinder)
    (gasComposition : GasComposition) (temperature : ℝ) (verbose debug verbose' debug' : Bool)
    (h : (cylinders.map fun c => c.CylinderVolume).sum ≠ 0) :
    (Equalize (Equalize cylinders GasSystem.idealGas gasComposition temperature verbose
        debug).1 GasSystem.idealGas gasComposition temperature verbose' debug').1
      = (Equalize cylinders GasSystem.idealGas gasComposition temperature verbose debug).1 := by
  have hvol : ((Equalize cylinders GasSystem.idealGas gasComposition temperature verbose
        debug).1.map fun c => c.CylinderVolume).sum
      = (cylinders.map fun c => c.CylinderVolume).sum := by
    rw [Equalize_fst, map_update_vol]
  have hgas : ((Equalize cylinders GasSystem.idealGas gasComposition temperature verbose
        debug).1.map fun c => c.GasVolume GasSystem.idealGas gasComposition temperature).sum
      = (cylinders.map fun c => c.CylinderVolume).sum
        * pressureAfterEqualize cylinders GasSystem.idealGas gasComposition temperature := by
    rw [Equalize_fst, ideal_gasVolume_map, map_update_mul, sum_map_mul_const]
  have hp2 : pressureAfterEqualize
        (Equalize cylinders GasSystem.idealGas gasComposition temperature verbose debug).1
        GasSystem.idealGas gasComposition temperature
      = pressureAfterEqualize cylinders GasSystem.idealGas gasComposition temperature := by
    rw [pressureAfterEqualize_ideal, hgas, hvol, mul_comm, mul_div_assoc, div_self h, mul_one]
  rw [Equalize_fst (Equalize cylinders GasSystem.idealGas gasComposition temperature verbose
      debug).1, hp2, Equalize_fst, map_update_twice]

/-- Witness for C5's theorem at a concrete two-cylinder group. -/
theorem equalize_idempotent_ideal_witness :
    ((([⟨"source", 12, 232⟩, ⟨"destination", 12, 100⟩] : List Cylinder).map
        fun c => c.CylinderVolume).sum ≠ 0)
    ∧ (Equalize (Equalize [⟨"source", 12, 232⟩, ⟨"destination", 12, 100⟩]
          GasSystem.idealGas [] 293.15 false false).1 GasSystem.idealGas [] 293.15 true
        true).1
      = (Equalize [⟨"source", 12, 232⟩, ⟨"destination", 12, 100⟩] GasSystem.idealGas []
          293.15 false false).1 :=
  ⟨by norm_num,
    equalize_idempotent_ideal [⟨"source", 12, 232⟩, ⟨"destination", 12, 100⟩] [] 293.15
      false false true true (by norm_num)⟩

/-- C10: the `verbose` and `debug` flags influence only the printed output of
`equalizeAndReport`, never the returned summary (pressures, gas volumes, gas
weights): the summary is identical for all flag combinations. -/
theorem summary_independent_of_flags (cylinderConfiguration : CylinderConfiguration)
    (gasSystem : GasSystem) (gasComposition : GasComposition) (temperature : ℝ)
    (printSourceSummary verbose debug verbose' debug' : Bool) :
    (equalizeAndReport cylinderConfiguration gasSystem gasComposition temperature verbose
        debug printSourceSummary).1
      = (equalizeAndReport cylinderConfiguration gasSystem gasComposition temperature verbose'
        debug' printSourceSummary).1 := by
  rcases cylinderConfiguration with ⟨dt, dp, dv, st, sp, sv⟩
  cases dt <;> cases st <;> rfl

/-- C8: `equalizeAndReport` performs exactly the pairwise equalizations in
source-major, destination-minor order followed by one `Equalize` of the full
destination group alone (never the source group): it returns the summary of
`scenarioSpec`, the spec-side description of that step sequence. -/
theorem equalizeAndReport_is_pairwise_then_destination_group
    (cylinderConfiguration : CylinderConfiguration) (gasSystem : GasSystem)
    (gasComposition : GasComposition) (temperature : ℝ)
    (verbose debug printSourceSummary : Bool) :
    (equalizeAndReport cylinderConfiguration gasSystem gasComposition temperature verbose
        debug printSourceSummary).1
      = scenarioSpec cylinderConfiguration gasSystem gasComposition temperature := by
  rcases cylinderConfiguration with ⟨dt, dp, dv, st, sp, sv⟩
  cases dt <;> cases st <;> rfl

/-- C4 counterexample: with both sides twinsets (source 24 L at 232 bar,
destination 24 L at 100 bar, ideal gas), performing the pairwise steps in the
permuted order (s0,d0), (s1,d1), (s1,d0), (s0,d1) yields a different final
summary than the implemented source-major order: the source group ends at
166 bar instead of 149.5 bar. -/
theorem pairwise_order_changes_summary :
    scenarioWithOrder [(0, 0), (1, 1), (1, 0), (0, 1)] ⟨true, 100, 24, true, 232, 24⟩
        GasSystem.idealGas [] 293.15
      ≠ (equalizeAndReport ⟨true, 100, 24, true, 232, 24⟩ GasSystem.idealGas [] 293.15
        false false true).1 := by
  intro h
  have h2 := congrArg CylinderSummary.SourceCylinderPressure h
  simp only [scenarioWithOrder, equalizeAndReport, initializeCylinders, pairLoop, pairStep,
    Cylinder.Equalize, Equalize_fst, length_two, length_one, range_two, List.foldl_cons,
    List.foldl_nil, List.getD_cons_zero, List.getD_cons_succ,
    List.set_cons_zero, List.set_cons_succ, List.map_cons, List.map_nil, if_true,
    Bool.and_self, ite_true] at h2
  norm_num [CylinderList.TotalGasVolume, CylinderList.TotalVolume, Cylinder.GasVolume,
    pressureAfterEqualize_ideal, PressureFromVolumes] at h2

/-- C4 (amended): the final summary is unchanged under reorderings that only
exchange pairwise steps touching disjoint cylinder pairs; in particular the
destination-major order (s0,d0), (s1,d0), (s0,d1), (s1,d1) yields exactly the
implemented source-major summary, for every configuration with both sides
twinsets, in both gas modes. An arbitrary permutation of the pair order can
change the summary (see the counterexample). -/
theorem destination_major_order_same_summary (cylinderConfiguration : CylinderConfiguration)
    (gasSystem : GasSystem) (gasComposition : GasComposition) (temperature : ℝ)
    (verbose debug printSourceSummary : Bool)
    (h1 : cylinderConfiguration.SourceCylinderIsTwinset = true)
    (h2 : cylinderConfiguration.DestinationCylinderIsTwinset = true) :
    scenarioWithOrder [(0, 0), (1, 0), (0, 1), (1, 1)] cylinderConfiguration gasSystem
        gasComposition temperature
      = (equalizeAndReport cylinderConfiguration gasSystem gasComposition temperature
        verbose debug printSourceSummary).1 := by
  rcases cylinderConfiguration with ⟨dt, dp, dv, st, sp, sv⟩
  subst h1
  subst h2
  simp only [scenarioWithOrder, equalizeAndReport, initializeCylinders, pairLoop, pairStep,
    Cylinder.Equalize, Equalize_fst, length_two, length_one, range_two, List.foldl_cons,
    List.foldl_nil, List.getD_cons_zero, List.getD_cons_succ,
    List.set_cons_zero, List.set_cons_succ, List.map_cons, List.map_nil, if_true,
    Bool.and_self, ite_true]

/-- Witness for C4's amended theorem at a concrete both-twinset configuration. -/
theorem destination_major_order_same_summary_witness :
    ((⟨true, 100, 24, true, 232, 24⟩ : CylinderConfiguration).SourceCylinderIsTwinset = true
      ∧ (⟨true, 100, 24, true, 232, 24⟩ :
          CylinderConfiguration).DestinationCylinderIsTwinset = true)
    ∧ scenarioWithOrder [(0, 0), (1, 0), (0, 1), (1, 1)] ⟨true, 100, 24, true, 232, 24⟩
        GasSystem.idealGas [] 293.15
      = (equalizeAndReport ⟨true, 100, 24, true, 232, 24⟩ GasSystem.idealGas [] 293.15
        false false true).1 :=
  ⟨⟨rfl, rfl⟩,
    destination_major_order_same_summary ⟨true, 100, 24, true, 232, 24⟩ GasSystem.idealGas
      [] 293.15 false false true rfl rfl⟩

/-- C2: the claim says `GasToMoles` returns exactly 0 moles for any partial
pressure P ≤ 0, short-circuiting before the cube root. The source has no such
short circuit: it always evaluates the Cardano formula, and at the concrete
input V = 1, P = 0, constants a = b = 1, T = 1/0.0831 (so that R·T = 1) the
formula evaluates (in exact real arithmetic) to
0.26457·∛2 − 0.83994/∛2 + 0.33333 ≈ 6.49·10⁻⁶, which is not 0. -/
theorem gasToMoles_nonzero_at_zero_pressure :
    GasToMoles 1 0 ⟨1, 1⟩ (10000 / 831) ≠ 0 := by
  have hs1 : subterm1 1 0 ⟨1, 1⟩ (10000 / 831) = -7 := by
    norm_num [subterm1, R]
  have hs2 : subterm2 1 0 ⟨1, 1⟩ (10000 / 831) = 2 := by
    norm_num [subterm2, R]
  have hbase : subterm3 1 0 ⟨1, 1⟩ (10000 / 831) = (2:ℝ) ^ ((1:ℝ)/3) := by
    rw [subterm3, hs1, hs2]
    rw [show (4 * (2:ℝ) ^ 3 + (-7:ℝ) ^ 2) = 9 ^ 2 by norm_num]
    rw [Real.sqrt_sq (by norm_num)]
    norm_num
  have hSlo : (1.259921049 : ℝ) ≤ (2:ℝ) ^ ((1:ℝ)/3) :=
    le_cbrt_of_cube_le (by norm_num) (by norm_num)
  have hShi : ((2:ℝ)) ^ ((1:ℝ)/3) ≤ 1.2599211 :=
    cbrt_le_of_le_cube (by norm_num) (by norm_num) (by norm_num)
  have main : ∀ S : ℝ, (1.259921049:ℝ) ≤ S → S ≤ 1.2599211 →
      0 < 0.26457 * S / ((1:ℝ) * 1) - 0.41997 * 2 / ((1:ℝ) * 1 * S) + 0.33333 * 1 / 1 := by
    intro S h1 h2
    have hSpos : (0:ℝ) < S := lt_of_lt_of_le (by norm_num) h1
    have heq : 0.26457 * S / ((1:ℝ) * 1) - 0.41997 * 2 / ((1:ℝ) * 1 * S) + 0.33333 * 1 / 1
        = (0.26457 * S * S + 0.33333 * S - 0.83994) / S := by
      field_simp
      ring
    rw [heq]
    apply div_pos _ hSpos
    nlinarith
  have hG := main ((2:ℝ) ^ ((1:ℝ)/3)) hSlo hShi
  have hpos : 0 < GasToMoles 1 0 ⟨1, 1⟩ (10000 / 831) := by
    rw [GasToMoles, hbase, hs2]
    norm_num at hG ⊢
    linarith [hG]
  exact ne_of_gt hpos

/-- C6 counterexample: at V = 1 L, P = 200 bar, nitrogen constants,
T = 293.15 K (inside the supported envelope), the round trip
`MolesToPressure(V, GasToMoles(V, P, c, T), T, c)` misses P by about
0.00438 bar, far beyond 1e-9 relative tolerance (the repository's own
floating-point tolerance). -/
theorem roundtrip_not_within_tolerance :
    ¬ (|MolesToPressure 1 (GasToMoles 1 200 (VanDerWaalsConstants Gas.nitrogen) 293.15)
        293.15 (VanDerWaalsConstants Gas.nitrogen) - 200| ≤ 1e-9 * 200) := by
  obtain ⟨ha, hb⟩ := gasToMoles_200_bounds
  obtain ⟨hc, hd⟩ := molesToPressure_first_bounds _ ha hb
  intro h
  rw [abs_le] at h
  linarith [h.2]

/-- C6 (amended): the round trip reproduces the pressure only to coarse
accuracy (the truncated Cardano constants 0.26457/0.41997/0.33333 limit it):
at the representative instance V = 1 L, P = 200 bar, nitrogen, T = 293.15 K
the error is below 1e-4 relative (but above 1e-9 relative, see the
counterexample). -/
theorem roundtrip_within_coarse_tolerance :
    |MolesToPressure 1 (GasToMoles 1 200 (VanDerWaalsConstants Gas.nitrogen) 293.15)
        293.15 (VanDerWaalsConstants Gas.nitrogen) - 200| ≤ 1e-4 * 200 := by
  obtain ⟨ha, hb⟩ := gasToMoles_200_bounds
  obtain ⟨hc, hd⟩ := molesToPressure_first_bounds _ ha hb
  rw [abs_le]
  constructor <;> linarith

/-- C1 counterexample: in Van der Waals mode, `Equalize` does not preserve the
total molar content to 1e-9 relative tolerance. For the single-cylinder group
[⟨"c", 1 L, 200 bar⟩] with pure-nitrogen composition at 293.15 K, the molar
content after the call differs from the one before by about 1.47·10⁻⁴ mol
(relative error about 1.8·10⁻⁵), because the truncated Cardano closed form is
not an exact inverse of the Van der Waals pressure formula. -/
theorem equalize_vanDerWaals_not_conserving :
    ¬ (|((Equalize [⟨"c", 1, 200⟩] GasSystem.vanDerWaals [(Gas.nitrogen, 1)] 293.15 false
            false).1.map fun c =>
            gasCompositionToMoles c.CylinderVolume c.Pressure 293.15 [(Gas.nitrogen, 1)]).sum
        - (([⟨"c", 1, 200⟩] : List Cylinder).map fun c =>
            gasCompositionToMoles c.CylinderVolume c.Pressure 293.15 [(Gas.nitrogen, 1)]).sum|
      ≤ 1e-9 * |(([⟨"c", 1, 200⟩] : List Cylinder).map fun c =>
            gasCompositionToMoles c.CylinderVolume c.Pressure 293.15
              [(Gas.nitrogen, 1)]).sum|) := by
  have hbefore : (([⟨"c", 1, 200⟩] : List Cylinder).map fun c =>
        gasCompositionToMoles c.CylinderVolume c.Pressure 293.15 [(Gas.nitrogen, 1)]).sum
      = GasToMoles 1 200 (VanDerWaalsConstants Gas.nitrogen) 293.15 := by
    simp [gasCompositionToMoles, PartialPressure]
  have hp : pressureAfterEqualize [⟨"c", 1, 200⟩] GasSystem.vanDerWaals [(Gas.nitrogen, 1)]
        293.15
      = MolesToPressure 1 (GasToMoles 1 200 (VanDerWaalsConstants Gas.nitrogen) 293.15)
          293.15 (VanDerWaalsConstants Gas.nitrogen) := by
    simp [pressureAfterEqualize, cylinderMolesToPressure, Cylinder.Moles,
      gasCompositionToMoles, PartialPressure]
  have hafter : ((Equalize [⟨"c", 1, 200⟩] GasSystem.vanDerWaals [(Gas.nitrogen, 1)] 293.15
        false false).1.map fun c =>
        gasCompositionToMoles c.CylinderVolume c.Pressure 293.15 [(Gas.nitrogen, 1)]).sum
      = GasToMoles 1
          (MolesToPressure 1 (GasToMoles 1 200 (VanDerWaalsConstants Gas.nitrogen) 293.15)
            293.15 (VanDerWaalsConstants Gas.nitrogen))
          (VanDerWaalsConstants Gas.nitrogen) 293.15 := by
    rw [Equalize_fst]
    simp [gasCompositionToMoles, PartialPressure, hp]
  obtain ⟨a1, a2⟩ := gasToMoles_200_bounds
  obtain ⟨b1, b2⟩ := molesToPressure_first_bounds _ a1 a2
  obtain ⟨c1, c2⟩ := gasToMoles_second_bounds _ b1 b2
  intro h
  rw [hbefore, hafter, abs_le] at h
  have habs : |GasToMoles 1 200 (VanDerWaalsConstants Gas.nitrogen) 293.15|
      = GasToMoles 1 200 (VanDerWaalsConstants Gas.nitrogen) 293.15 :=
    abs_of_pos (by linarith)
  rw [habs] at h
  linarith [h.2]

/-- C5 counterexample: in Van der Waals mode, `Equalize` is not idempotent.
For the single-cylinder group [⟨"c", 1 L, 200 bar⟩] with pure-nitrogen
composition at 293.15 K, the first call sets the pressure to about 200.00438
bar and a second call moves it again, to about 200.00876 bar, because the
solver's moles→pressure→moles round trip is inexact. -/
theorem second_equalize_changes_pressure :
    (((Equalize (Equalize [⟨"c", 1, 200⟩] GasSystem.vanDerWaals [(Gas.nitrogen, 1)] 293.15
          false false).1 GasSystem.vanDerWaals [(Gas.nitrogen, 1)] 293.15 false
        false).1.getD 0 default).Pressure)
      ≠ (((Equalize [⟨"c", 1, 200⟩] GasSystem.vanDerWaals [(Gas.nitrogen, 1)] 293.15 false
        false).1.getD 0 default).Pressure) := by
  have hp : pressureAfterEqualize [⟨"c", 1, 200⟩] GasSystem.vanDerWaals [(Gas.nitrogen, 1)]
        293.15
      = MolesToPressure 1 (GasToMoles 1 200 (VanDerWaalsConstants Gas.nitrogen) 293.15)
          293.15 (VanDerWaalsConstants Gas.nitrogen) := by
    simp [pressureAfterEqualize, cylinderMolesToPressure, Cylinder.Moles,
      gasCompositionToMoles, PartialPressure]
  have hfirst : (((Equalize [⟨"c", 1, 200⟩] GasSystem.vanDerWaals [(Gas.nitrogen, 1)] 293.15
        false false).1.getD 0 default).Pressure)
      = MolesToPressure 1 (GasToMoles 1 200 (VanDerWaalsConstants Gas.nitrogen) 293.15)
          293.15 (VanDerWaalsConstants Gas.nitrogen) := by
    rw [Equalize_fst]
    simp [hp]
  have hsecond : (((Equalize (Equalize [⟨"c", 1, 200⟩] GasSystem.vanDerWaals
          [(Gas.nitrogen, 1)] 293.15 false false).1 GasSystem.vanDerWaals [(Gas.nitrogen, 1)]
          293.15 false false).1.getD 0 default).Pressure)
      = MolesToPressure 1
          (GasToMoles 1
            (MolesToPressure 1 (GasToMoles 1 200 (VanDerWaalsConstants Gas.nitrogen) 293.15)
              293.15 (VanDerWaalsConstants Gas.nitrogen))
            (VanDerWaalsConstants Gas.nitrogen) 293.15)
          293.15 (VanDerWaalsConstants Gas.nitrogen) := by
    rw [Equalize_fst (Equalize [⟨"c", 1, 200⟩] GasSystem.vanDerWaals [(Gas.nitrogen, 1)]
      293.15 false false).1, Equalize_fst]
    simp [pressureAfterEqualize, cylinderMolesToPressure, Cylinder.Moles,
      gasCompositionToMoles, PartialPressure, hp]
  rw [hfirst, hsecond]
  obtain ⟨a1, a2⟩ := gasToMoles_200_bounds
  obtain ⟨b1, b2⟩ := molesToPressure_first_bounds _ a1 a2
  obtain ⟨c1, c2⟩ := gasToMoles_second_bounds _ b1 b2
  obtain ⟨d1, d2⟩ := molesToPressure_second_bounds _ c1 c2
  intro h
  linarith [h.le]

end ScubaWhip
